import Mathlib

/-!
Shallow embedding of the token-lifecycle core of the habit-tracker backend
(Express + PostgreSQL).  Each SQL query of the models is modelled as one
atomic transformation of an explicit database state (`DB`); the controllers
(`AuthController`) and the auth middleware are modelled as pure functions
over that state.  Randomness (fresh refresh secrets, argon2 salts) is passed
in as explicit oracle arguments; wall-clock time is an explicit `now : Nat`
(milliseconds).  SHA-256 and the argon2/JWT primitives of the external
libraries are modelled as injective symbolic constructions, which is the
standard collision-free idealization: the control flow of the code depends
only on equality of hashes and validity of signatures.
-/

/-- A row of the `users` table (src/types: interface User). -/
structure User where
  id : Nat
  email : String
  password_hash : String
  created_at : Nat
  updated_at : Nat
deriving DecidableEq

/-- A row of the `refresh_tokens` table (src/types: interface RefreshToken);
`revoked_at = none` models `revoked_at IS NULL`. -/
structure RefreshTokenRecord where
  id : Nat
  user_id : Nat
  token_hash : String
  expires_at : Nat
  created_at : Nat
  revoked_at : Option Nat
deriving DecidableEq

/-- The persistent database state: both tables (rows in insertion order) and
the `SERIAL` id counters. -/
structure DB where
  users : List User
  refresh_tokens : List RefreshTokenRecord
  nextUserId : Nat
  nextTokenId : Nat
deriving DecidableEq

/-- JWT claims (src/types: interface JWTPayload), with `iat`/`exp` always
present on issued tokens. -/
structure JWTPayload where
  userId : Nat
  email : String
  iat : Nat
  exp : Nat
deriving DecidableEq

/-- A structurally well-formed JWT: payload, registered claims checked by
`jwt.verify`, and a signature. -/
structure SignedToken where
  payload : JWTPayload
  issuer : String
  audience : String
  signature : String
deriving DecidableEq

/-- A bearer token as presented by a client: either a well-formed JWT or an
arbitrary malformed string (on which `jwt.verify` throws). -/
inductive Token
  | signed (st : SignedToken)
  | malformed (raw : String)
deriving DecidableEq

/-- utils/auth.ts: JWT_SECRET (default fallback value). -/
def JWT_SECRET : String := "fallback-secret-change-this"

/-- utils/auth.ts: JWT_EXPIRES_IN default. -/
def JWT_EXPIRES_IN : String := "15m"

/-- utils/auth.ts: REFRESH_TOKEN_EXPIRES_IN default. -/
def REFRESH_TOKEN_EXPIRES_IN : String := "7d"

/-- utils/auth.ts `parseExpiry`: `^(\d+)([smhd])$` → milliseconds; `none`
models the thrown `Invalid expiry format` error. -/
def parseExpiry (expiry : String) : Option Nat :=
  let cs := expiry.data
  match cs.getLast? with
  | none => none
  | some unit =>
    let digits := cs.dropLast
    if digits.isEmpty then none
    else if digits.all Char.isDigit then
      let value := digits.foldl (fun acc c => acc * 10 + (c.toNat - 48)) 0
      match unit with
      | 's' => some (value * 1000)
      | 'm' => some (value * 60 * 1000)
      | 'h' => some (value * 60 * 60 * 1000)
      | 'd' => some (value * 24 * 60 * 60 * 1000)
      | _ => none
    else none

/-- Access-token lifetime in ms (15 minutes). -/
def accessTokenLifetimeMs : Nat := (parseExpiry JWT_EXPIRES_IN).getD 0

/-- Refresh-token lifetime in ms (7 days). -/
def refreshTokenLifetimeMs : Nat := (parseExpiry REFRESH_TOKEN_EXPIRES_IN).getD 0

/-- utils/auth.ts `getRefreshTokenExpiry`: now + parsed lifetime. -/
def getRefreshTokenExpiry (now : Nat) : Nat := now + refreshTokenLifetimeMs

/-- SHA-256 of a refresh secret (utils/auth.ts `hashRefreshToken`), modelled
as an injective tagging function (collision-free idealization). -/
def hashRefreshToken (token : String) : String := "sha256:" ++ token

/-- The HMAC-SHA256 signature `jwt.sign` computes over the token content,
modelled as an injective encoding of (secret, claims, issuer, audience). -/
def macSign (secret : String) (p : JWTPayload) (iss aud : String) : String :=
  secret ++ "#" ++ iss ++ "#" ++ aud ++ "#" ++ toString p.userId ++ "#" ++ p.email
    ++ "#" ++ toString p.iat ++ "#" ++ toString p.exp

/-- utils/auth.ts `generateAccessToken`: signs {userId, email} with
issuer `habit-tracker`, audience `habit-tracker-users` and a 15-minute
expiry. -/
def generateAccessToken (now userId : Nat) (email : String) : Token :=
  let p : JWTPayload :=
    { userId := userId, email := email, iat := now, exp := now + accessTokenLifetimeMs }
  .signed { payload := p, issuer := "habit-tracker", audience := "habit-tracker-users",
            signature := macSign JWT_SECRET p "habit-tracker" "habit-tracker-users" }

/-- utils/auth.ts `verifyAccessToken`: `jwt.verify` checks the signature,
issuer, audience and expiry; the surrounding try/catch turns every failure
(including malformed input) into `null`, modelled as `none`. -/
def verifyAccessToken (tok : Token) (now : Nat) : Option JWTPayload :=
  match tok with
  | .malformed _ => none
  | .signed st =>
    if st.signature == macSign JWT_SECRET st.payload st.issuer st.audience
        && st.issuer == "habit-tracker"
        && st.audience == "habit-tracker-users"
        && decide (now < st.payload.exp)
    then some st.payload else none

/-- An argon2id digest (utils/auth.ts `hashPassword`), modelled as an
injective encoding of the per-call random salt and the password: `verify`
of the real library succeeds exactly on (digest, password) pairs where the
digest was produced from that password. -/
def hashPassword (salt : Nat) (password : String) : String :=
  "argon2id$" ++ toString salt ++ "$" ++ password

/-- Structural well-formedness of an argon2 digest in this model: the tag,
a numeric salt field and a payload field. -/
def wellFormedDigest (digest : String) : Bool :=
  match digest.data.splitOn '$' with
  | tag :: salt :: _ :: _ =>
      tag == "argon2id".data && !salt.isEmpty && salt.all Char.isDigit
  | _ => false

/-- The password a well-formed digest encodes (everything after the second
separator, separators restored). -/
def digestPassword (digest : String) : String :=
  match digest.data.splitOn '$' with
  | _ :: _ :: rest => ⟨List.intercalate ['$'] rest⟩
  | _ => ""

/-- `argon2.verify` of the library: throws (`Except.error`) on a digest that
does not parse as argon2, otherwise decides whether the digest matches the
password. -/
def argon2Verify (digest password : String) : Except String Bool :=
  if wellFormedDigest digest then .ok (digestPassword digest == password)
  else .error "pchstr must contain a $ as first char"

/-- utils/auth.ts `verifyPassword`: wraps `argon2.verify` in try/catch and
returns `false` on any thrown error. -/
def verifyPassword (digest password : String) : Bool :=
  match argon2Verify digest password with
  | .ok b => b
  | .error _ => false

/-- utils/auth.ts `validateEmail`: the regex `^[^\s@]+@[^\s@]+\.[^\s@]+$`
(exactly one `@`, no whitespace, and a dot in the domain part that is neither
its first nor its last character). -/
def validateEmail (email : String) : Bool :=
  match email.data.splitOn '@' with
  | [a, b] =>
      !a.isEmpty && a.all (fun c => !c.isWhitespace)
        && !b.isEmpty && b.all (fun c => !c.isWhitespace)
        && (List.range b.length).any
            (fun i => decide (1 ≤ i) && decide (i + 2 ≤ b.length) && b.getD i ' ' == '.')
  | _ => false

/-- utils/auth.ts `validatePassword`: length ≥ 8 plus at least one ASCII
uppercase letter, lowercase letter and digit. -/
def validatePassword (password : String) : Bool :=
  decide (8 ≤ password.length)
    && password.data.any Char.isUpper
    && password.data.any Char.isLower
    && password.data.any Char.isDigit

/-- A record is active (models `revoked_at IS NULL AND expires_at > NOW()`). -/
def RefreshTokenRecord.isActive (r : RefreshTokenRecord) (now : Nat) : Bool :=
  r.revoked_at.isNone && decide (now < r.expires_at)

namespace UserModel

/-- models/User `create`: INSERT a new user row. -/
def create (db : DB) (now : Nat) (email passwordHash : String) : DB × User :=
  let u : User := { id := db.nextUserId, email := email, password_hash := passwordHash,
                    created_at := now, updated_at := now }
  ({ db with users := db.users ++ [u], nextUserId := db.nextUserId + 1 }, u)

/-- models/User `findByEmail`: first row with this email, or null. -/
def findByEmail (db : DB) (email : String) : Option User :=
  db.users.find? (fun u => u.email == email)

/-- models/User `findById`: first row with this id, or null. -/
def findById (db : DB) (id : Nat) : Option User :=
  db.users.find? (fun u => u.id == id)

end UserModel

namespace RefreshTokenModel

/-- models/RefreshToken `create`: INSERT a new active record. -/
def create (db : DB) (now : Nat) (userId : Nat) (tokenHash : String) (expiresAt : Nat) :
    DB × RefreshTokenRecord :=
  let r : RefreshTokenRecord :=
    { id := db.nextTokenId, user_id := userId, token_hash := tokenHash,
      expires_at := expiresAt, created_at := now, revoked_at := none }
  ({ db with refresh_tokens := db.refresh_tokens ++ [r], nextTokenId := db.nextTokenId + 1 }, r)

/-- models/RefreshToken `findByTokenHash`:
`WHERE token_hash = $1 AND revoked_at IS NULL AND expires_at > NOW()`,
returning the first row or null. -/
def findByTokenHash (db : DB) (now : Nat) (tokenHash : String) : Option RefreshTokenRecord :=
  db.refresh_tokens.find? (fun r => r.token_hash == tokenHash && r.isActive now)

/-- models/RefreshToken `revoke`:
`UPDATE refresh_tokens SET revoked_at = NOW() WHERE id = $1` —
unconditional on `revoked_at`, so it re-stamps already-revoked rows. -/
def revoke (db : DB) (now : Nat) (id : Nat) : DB :=
  let rows := db.refresh_tokens.map
    (fun r => if r.id == id then { r with revoked_at := some now } else r)
  { db with refresh_tokens := rows }

/-- models/RefreshToken `revokeAllForUser`:
`UPDATE ... SET revoked_at = NOW() WHERE user_id = $1 AND revoked_at IS NULL`. -/
def revokeAllForUser (db : DB) (now : Nat) (userId : Nat) : DB :=
  let rows := db.refresh_tokens.map
    (fun r => if r.user_id == userId && r.revoked_at.isNone
              then { r with revoked_at := some now } else r)
  { db with refresh_tokens := rows }

/-- models/RefreshToken `findActiveByUserId`:
`WHERE user_id = $1 AND revoked_at IS NULL AND expires_at > NOW()
ORDER BY created_at DESC`; the sort models the ORDER BY clause. -/
def findActiveByUserId (db : DB) (now : Nat) (userId : Nat) : List RefreshTokenRecord :=
  ((db.refresh_tokens.filter (fun r => r.user_id == userId && r.isActive now)).insertionSort
    (fun a b => b.created_at ≤ a.created_at))

/-- models/RefreshToken `cleanupExpired`:
`DELETE ... WHERE expires_at < NOW() OR revoked_at IS NOT NULL`, returning
the number of rows removed. -/
def cleanupExpired (db : DB) (now : Nat) : DB × Nat :=
  let keep := db.refresh_tokens.filter
    (fun r => !(decide (r.expires_at < now) || r.revoked_at.isSome))
  ({ db with refresh_tokens := keep }, db.refresh_tokens.length - keep.length)

/-- models/RefreshToken `revokeByTokenHash`:
`UPDATE ... SET revoked_at = NOW() WHERE token_hash = $1 AND revoked_at IS NULL
RETURNING id`; the Bool is `rowCount > 0`. -/
def revokeByTokenHash (db : DB) (now : Nat) (tokenHash : String) : DB × Bool :=
  let hit := fun (r : RefreshTokenRecord) => r.token_hash == tokenHash && r.revoked_at.isNone
  let rows := db.refresh_tokens.map
    (fun r => if hit r then { r with revoked_at := some now } else r)
  ({ db with refresh_tokens := rows }, decide (0 < (db.refresh_tokens.filter hit).length))

end RefreshTokenModel

/-- Outcome of the `requireAuth` middleware (middleware/auth.ts). -/
inductive AuthOutcome
  | missingToken
  | invalidToken
  | userNotFound
  | ok (userId : Nat) (email : String)
deriving DecidableEq

/-- middleware/auth.ts `requireAuth`: a missing or non-Bearer Authorization
header is modelled as `none`; otherwise the token is verified and then the
user is looked up in the database (`UserModel.findById`) before the request
is accepted. -/
def requireAuth (db : DB) (now : Nat) (header : Option Token) : AuthOutcome :=
  match header with
  | none => .missingToken
  | some tok =>
    match verifyAccessToken tok now with
    | none => .invalidToken
    | some payload =>
      match UserModel.findById db payload.userId with
      | none => .userNotFound
      | some u => .ok u.id u.email

/-- Response of the register endpoint: an error (HTTP status, machine code)
or 201 with tokens and the public user view. -/
inductive RegisterR
  | err (status : Nat) (code : String)
  | created (accessToken : Token) (refreshToken : String) (userId : Nat) (email : String)
deriving DecidableEq

/-- Response of the login endpoint. -/
inductive LoginR
  | err (status : Nat) (code : String)
  | loggedIn (accessToken : Token) (refreshToken : String) (userId : Nat) (email : String)
deriving DecidableEq

/-- Response of the refresh endpoint. -/
inductive RefreshR
  | err (status : Nat) (code : String)
  | refreshed (accessToken : Token) (refreshToken : String) (userId : Nat) (email : String)
deriving DecidableEq

/-- Whether a refresh response is the 200 success. -/
def RefreshR.isRefreshed : RefreshR → Bool
  | .refreshed _ _ _ _ => true
  | .err _ _ => false

/-- Response of the logout endpoint (always 200 on reachable paths). -/
inductive LogoutR
  | done
deriving DecidableEq

/-- One element of the session listing: only id, created-at and expires-at
are projected out of a record. -/
structure Session where
  id : Nat
  createdAt : Nat
  expiresAt : Nat
deriving DecidableEq

/-- Response of the sessions endpoint. -/
inductive SessionsR
  | err (status : Nat) (code : String)
  | ok (sessions : List Session) (total : Nat)
deriving DecidableEq

namespace AuthController

/-- controllers/authController `register`.  `schemaOk` is the outcome of the
external Joi `registerSchema` validation (excluded schema layer); `now` the
clock; `newSecret` the random value `generateRefreshToken` draws; `salt` the
argon2 salt.  Sequential (one request at a time) semantics. -/
def register (db : DB) (now : Nat) (schemaOk : Bool) (email password : String)
    (salt : Nat) (newSecret : String) : RegisterR × DB :=
  if !schemaOk then (.err 400 "VALIDATION_ERROR", db)
  else if !validateEmail email then (.err 400 "INVALID_EMAIL", db)
  else if !validatePassword password then (.err 400 "WEAK_PASSWORD", db)
  else
    match UserModel.findByEmail db email with
    | some _ => (.err 409 "USER_EXISTS", db)
    | none =>
      let passwordHash := hashPassword salt password
      let (db1, user) := UserModel.create db now email passwordHash
      let accessToken := generateAccessToken now user.id user.email
      let refreshTokenHash := hashRefreshToken newSecret
      let (db2, _) := RefreshTokenModel.create db1 now user.id refreshTokenHash
        (getRefreshTokenExpiry now)
      (.created accessToken newSecret user.id user.email, db2)

/-- controllers/authController `login`. -/
def login (db : DB) (now : Nat) (schemaOk : Bool) (email password : String)
    (newSecret : String) : LoginR × DB :=
  if !schemaOk then (.err 400 "VALIDATION_ERROR", db)
  else
    match UserModel.findByEmail db email with
    | none => (.err 401 "INVALID_CREDENTIALS", db)
    | some user =>
      if !verifyPassword user.password_hash password then
        (.err 401 "INVALID_CREDENTIALS", db)
      else
        let accessToken := generateAccessToken now user.id user.email
        let refreshTokenHash := hashRefreshToken newSecret
        let (db1, _) := RefreshTokenModel.create db now user.id refreshTokenHash
          (getRefreshTokenExpiry now)
        (.loggedIn accessToken newSecret user.id user.email, db1)

/-- controllers/authController `refresh` (token rotation), sequential
semantics: hash the presented secret, look up an active record, resolve the
owning user, revoke the presented record, then create the successor record
from the fresh secret `newSecret`. -/
def refresh (db : DB) (now : Nat) (presented newSecret : String) : RefreshR × DB :=
  let refreshTokenHash := hashRefreshToken presented
  match RefreshTokenModel.findByTokenHash db now refreshTokenHash with
  | none => (.err 401 "INVALID_REFRESH_TOKEN", db)
  | some storedToken =>
    match UserModel.findById db storedToken.user_id with
    | none => (.err 401 "USER_NOT_FOUND", db)
    | some user =>
      let db1 := RefreshTokenModel.revoke db now storedToken.id
      let accessToken := generateAccessToken now user.id user.email
      let newHash := hashRefreshToken newSecret
      let (db2, _) := RefreshTokenModel.create db1 now user.id newHash
        (getRefreshTokenExpiry now)
      (.refreshed accessToken newSecret user.id user.email, db2)

/-- controllers/authController `logout`: optionally revoke the presented
secret's record, and if the request carries a valid access token
(`authUser`), additionally revoke every active record of that account. -/
def logout (db : DB) (now : Nat) (refreshToken : Option String)
    (authUser : Option (Nat × String)) : LogoutR × DB :=
  let db1 := match refreshToken with
    | some t => (RefreshTokenModel.revokeByTokenHash db now (hashRefreshToken t)).1
    | none => db
  let db2 := match authUser with
    | some (uid, _) => RefreshTokenModel.revokeAllForUser db1 now uid
    | none => db1
  (.done, db2)

/-- controllers/authController `getSessions`: requires `req.user` (set by
`requireAuth`), lists the active records of that account and projects each
to {id, createdAt, expiresAt}. -/
def getSessions (db : DB) (now : Nat) (authUser : Option (Nat × String)) : SessionsR :=
  match authUser with
  | none => .err 401 "AUTH_REQUIRED"
  | some (uid, _) =>
    let activeTokens := RefreshTokenModel.findActiveByUserId db now uid
    let sessions := activeTokens.map
      (fun t => { id := t.id, createdAt := t.created_at, expiresAt := t.expires_at : Session })
    .ok sessions sessions.length

end AuthController

/-- The local state of one in-flight refresh request, used to give the
refresh handler an interleaved (per-query atomic) semantics: `pc` counts the
awaited storage calls of `AuthController.refresh` already performed
(0 = lookup pending, 1 = user lookup pending, 2 = revoke pending,
3 = insert pending, 4 = responded). -/
structure RTask where
  presented : String
  fresh : String
  pc : Nat
  stored : Option RefreshTokenRecord
  usr : Option User
  result : Option RefreshR
deriving DecidableEq

/-- One atomic step of an in-flight refresh request: exactly one SQL query
(the unit of atomicity the PostgreSQL pool provides) runs against the shared
database, after which control may pass to any other request. -/
def stepRefreshTask (now : Nat) (db : DB) (tk : RTask) : DB × RTask :=
  match tk.pc with
  | 0 =>
    match RefreshTokenModel.findByTokenHash db now (hashRefreshToken tk.presented) with
    | none => (db, { tk with pc := 4, result := some (.err 401 "INVALID_REFRESH_TOKEN") })
    | some st => (db, { tk with pc := 1, stored := some st })
  | 1 =>
    match tk.stored with
    | none => (db, { tk with pc := 4 })
    | some st =>
      match UserModel.findById db st.user_id with
      | none => (db, { tk with pc := 4, result := some (.err 401 "USER_NOT_FOUND") })
      | some u => (db, { tk with pc := 2, usr := some u })
  | 2 =>
    match tk.stored with
    | none => (db, { tk with pc := 4 })
    | some st => (RefreshTokenModel.revoke db now st.id, { tk with pc := 3 })
  | 3 =>
    match tk.usr with
    | none => (db, { tk with pc := 4 })
    | some u =>
      let (db1, _) := RefreshTokenModel.create db now u.id (hashRefreshToken tk.fresh)
        (getRefreshTokenExpiry now)
      let res := RefreshR.refreshed (generateAccessToken now u.id u.email) tk.fresh u.id u.email
      (db1, { tk with pc := 4, result := some res })
  | _ => (db, tk)

/-- Run two concurrent refresh requests under an explicit schedule:
`false` steps the first request, `true` the second. -/
def runSchedule (now : Nat) : List Bool → DB × RTask × RTask → DB × RTask × RTask
  | [], s => s
  | pick :: rest, (db, t0, t1) =>
    if pick then
      let (db1, t1x) := stepRefreshTask now db t1
      runSchedule now rest (db1, t0, t1x)
    else
      let (db1, t0x) := stepRefreshTask now db t0
      runSchedule now rest (db1, t0x, t1)

/-- Concrete scenario for the rotation race: one account ... -/
def raceUser : User :=
  { id := 1, email := "u@x.com", password_hash := hashPassword 7 "Passw0rd1",
    created_at := 0, updated_at := 0 }

/-- ... with one active refresh record for the secret `secretA`. -/
def raceRec : RefreshTokenRecord :=
  { id := 1, user_id := 1, token_hash := hashRefreshToken "secretA",
    expires_at := 1000, created_at := 0, revoked_at := none }

/-- The database both concurrent requests share. -/
def raceDB : DB := { users := [raceUser], refresh_tokens := [raceRec],
                     nextUserId := 2, nextTokenId := 2 }

/-- First concurrent request: presents `secretA`, draws `secretB`. -/
def raceTask0 : RTask :=
  { presented := "secretA", fresh := "secretB", pc := 0,
    stored := none, usr := none, result := none }

/-- Second concurrent request: presents `secretA`, draws `secretC`. -/
def raceTask1 : RTask :=
  { presented := "secretA", fresh := "secretC", pc := 0,
    stored := none, usr := none, result := none }

/-- The interleaving in which both requests pass the lookup before either
revokes: lookup₀, lookup₁, user₀, user₁, revoke₀, insert₀, revoke₁,
insert₁. -/
def raceSchedule : List Bool := [false, true, false, true, false, false, true, true]

/-- The record of `raceDB`, already revoked at time 5. -/
def revokedRec : RefreshTokenRecord := { raceRec with revoked_at := some 5 }

/-- Database whose only refresh record is already revoked. -/
def revokedDB : DB :=
  { users := [raceUser], refresh_tokens := [revokedRec], nextUserId := 2, nextTokenId := 2 }

/-- A refresh record whose owning user id (9) has no user row. -/
def orphanRec : RefreshTokenRecord :=
  { id := 1, user_id := 9, token_hash := hashRefreshToken "orphan",
    expires_at := 1000, created_at := 0, revoked_at := none }

/-- Database with an orphaned active refresh record and no users. -/
def orphanDB : DB :=
  { users := [], refresh_tokens := [orphanRec], nextUserId := 1, nextTokenId := 2 }

instance : IsTotal RefreshTokenRecord (fun a b => b.created_at ≤ a.created_at) :=
  ⟨fun a b => Nat.le_total b.created_at a.created_at⟩

instance : IsTrans RefreshTokenRecord (fun a b => b.created_at ≤ a.created_at) :=
  ⟨fun _ _ _ hab hbc => Nat.le_trans hbc hab⟩

/-- The projection applied to each active record by `getSessions`. -/
def sessionOf (r : RefreshTokenRecord) : Session :=
  { id := r.id, createdAt := r.created_at, expiresAt := r.expires_at }

/-- The successor record a successful refresh inserts (restating the
`RefreshTokenModel.create` call of `AuthController.refresh`). -/
def newRecord (db : DB) (now : Nat) (uid : Nat) (newHash : String) : RefreshTokenRecord :=
  { id := db.nextTokenId, user_id := uid, token_hash := newHash,
    expires_at := now + refreshTokenLifetimeMs, created_at := now, revoked_at := none }

/-- The net database effect of a successful refresh: the presented record
(identified by `storedId`) revoked, then the successor record appended. -/
def rotatedDB (db : DB) (now : Nat) (storedId uid : Nat) (newHash : String) : DB :=
  { users := db.users,
    refresh_tokens :=
      (db.refresh_tokens.map
        (fun r => if r.id == storedId then { r with revoked_at := some now } else r))
      ++ [newRecord db now uid newHash],
    nextUserId := db.nextUserId, nextTokenId := db.nextTokenId + 1 }

/-- C9: `verifyPassword` never lets an `argon2.verify` error escape (any
thrown error is caught and mapped to `false`), and in particular on every
malformed digest it returns `false`. -/
theorem verifyPassword_never_raises (digest password : String) :
    (∀ e, argon2Verify digest password = Except.error e →
      verifyPassword digest password = false)
    ∧ (wellFormedDigest digest = false → verifyPassword digest password = false) := by
  constructor
  · intro e he
    unfold verifyPassword
    rw [he]
  · intro h
    unfold verifyPassword argon2Verify
    simp [h]

/-- Witness for C9 at the concrete malformed digest `not-a-hash`. -/
theorem verifyPassword_never_raises_witness :
    verifyPassword "not-a-hash" "Passw0rd1" = false :=
  (verifyPassword_never_raises "not-a-hash" "Passw0rd1").2 (by decide)

/-- C5: verifying the token issued for (userId, email) before its expiry
recovers exactly that account id and email; once the expiry has passed, or
on any signature, issuer, audience or structural mismatch, `verifyAccessToken`
returns the typed invalid result `none` (it is a total function: the
try/catch of the source never lets `jwt.verify` raise to the caller). -/
theorem tokenSigner_roundtrip (userId : Nat) (email : String) (now t : Nat) :
    (t < now + accessTokenLifetimeMs →
      verifyAccessToken (generateAccessToken now userId email) t
        = some { userId := userId, email := email, iat := now,
                 exp := now + accessTokenLifetimeMs })
    ∧ (now + accessTokenLifetimeMs ≤ t →
      verifyAccessToken (generateAccessToken now userId email) t = none)
    ∧ (∀ st : SignedToken,
        (st.signature ≠ macSign JWT_SECRET st.payload st.issuer st.audience
          ∨ st.issuer ≠ "habit-tracker"
          ∨ st.audience ≠ "habit-tracker-users"
          ∨ st.payload.exp ≤ t) →
        verifyAccessToken (.signed st) t = none)
    ∧ (∀ raw, verifyAccessToken (.malformed raw) t = none) := by
  refine ⟨?_, ?_, ?_, fun _ => rfl⟩
  · intro h
    simp [generateAccessToken, verifyAccessToken, h]
  · intro h
    simp [generateAccessToken, verifyAccessToken, Nat.not_lt.mpr h]
  · intro st h
    rcases h with h | h | h | h
    · simp [verifyAccessToken, h]
    · simp [verifyAccessToken, h]
    · simp [verifyAccessToken, h]
    · simp [verifyAccessToken, Nat.not_lt.mpr h]

/-- Witness for C5: round trip at a concrete claim set, and expiry cutoff. -/
theorem tokenSigner_roundtrip_witness :
    verifyAccessToken (generateAccessToken 0 42 "a@b.co") 5
      = some { userId := 42, email := "a@b.co", iat := 0, exp := 900000 }
    ∧ verifyAccessToken (generateAccessToken 0 42 "a@b.co") 900000 = none :=
  ⟨(tokenSigner_roundtrip 42 "a@b.co" 0 5).1 (by decide),
   (tokenSigner_roundtrip 42 "a@b.co" 0 900000).2.1 (by decide)⟩

/-- C7: the login failure for an unknown email and the login failure for a
wrong password are the literally identical response (401,
INVALID_CREDENTIALS) with an unchanged database, so a caller cannot
distinguish the two cases. -/
theorem login_unified_invalid_credentials (db : DB) (now : Nat)
    (email password newSecret : String) :
    (UserModel.findByEmail db email = none →
      AuthController.login db now true email password newSecret
        = (.err 401 "INVALID_CREDENTIALS", db))
    ∧ (∀ u, UserModel.findByEmail db email = some u →
        verifyPassword u.password_hash password = false →
        AuthController.login db now true email password newSecret
          = (.err 401 "INVALID_CREDENTIALS", db)) := by
  constructor
  · intro h
    simp [AuthController.login, h]
  · intro u hu hpw
    simp [AuthController.login, hu, hpw]

/-- Witness for C7: both failure shapes at concrete inputs produce the same
response value. -/
theorem login_unified_invalid_credentials_witness :
    AuthController.login raceDB 10 true "ghost@x.com" "Passw0rd1" "s"
      = (.err 401 "INVALID_CREDENTIALS", raceDB)
    ∧ AuthController.login raceDB 10 true "u@x.com" "WrongPw99" "s"
      = (.err 401 "INVALID_CREDENTIALS", raceDB) :=
  ⟨(login_unified_invalid_credentials raceDB 10 "ghost@x.com" "Passw0rd1" "s").1 (by decide),
   (login_unified_invalid_credentials raceDB 10 "u@x.com" "WrongPw99" "s").2 raceUser
     (by decide) (by decide)⟩

/-- C6 counterexample: a well-signed, unexpired access token is rejected by
`requireAuth` when the account row is absent, so acceptance is not fully
determined by signature and expiry — a database lookup is performed and can
fail the request. -/
theorem requireAuth_counterexample :
    (verifyAccessToken (generateAccessToken 0 42 "z@x.com") 5).isSome = true
    ∧ requireAuth { users := [], refresh_tokens := [], nextUserId := 1, nextTokenId := 1 } 5
        (some (generateAccessToken 0 42 "z@x.com")) = .userNotFound := by
  decide

/-- C6 amended: `requireAuth` accepts a request exactly when the bearer
token verifies (signature, issuer, audience, expiry) AND the owning account
is still found by the `UserModel.findById` database lookup; a valid token
whose account vanished is rejected with USER_NOT_FOUND. -/
theorem requireAuth_accepts_iff (db : DB) (now : Nat) (header : Option Token)
    (uid : Nat) (em : String) :
    requireAuth db now header = .ok uid em ↔
      ∃ tok payload u, header = some tok ∧ verifyAccessToken tok now = some payload
        ∧ UserModel.findById db payload.userId = some u
        ∧ uid = u.id ∧ em = u.email := by
  cases header with
  | none => simp [requireAuth]
  | some tok =>
    cases hv : verifyAccessToken tok now with
    | none => simp [requireAuth, hv]
    | some p =>
      cases hf : UserModel.findById db p.userId with
      | none => simp [requireAuth, hv, hf]
      | some u =>
        simp only [requireAuth, hv, hf, Option.some.injEq]
        constructor
        · intro h
          cases h
          exact ⟨tok, p, u, rfl, hv, hf, rfl, rfl⟩
        · rintro ⟨tok2, p2, u2, htok, hv2, hf2, huid, hem⟩
          cases htok
          rw [hv] at hv2
          cases hv2
          rw [hf] at hf2
          cases hf2
          subst huid hem
          rfl

/-- C3 counterexample: a schema-valid registration request for an email that
already has an account fails with the machine code USER_EXISTS (HTTP 409),
not ACCOUNT_EXISTS, leaving the database unchanged. -/
theorem register_counterexample :
    (AuthController.register raceDB 10 true "u@x.com" "Passw0rd1" 3 "s").1
      = .err 409 "USER_EXISTS"
    ∧ (AuthController.register raceDB 10 true "u@x.com" "Passw0rd1" 3 "s").1
      ≠ .err 409 "ACCOUNT_EXISTS"
    ∧ (AuthController.register raceDB 10 true "u@x.com" "Passw0rd1" 3 "s").2 = raceDB := by
  decide

/-- C3 amended: every registration request that passes input validation and
whose email already belongs to an existing account fails with error code
USER_EXISTS (the code the source emits for this case) and creates no user
row and no refresh-token row: the database is returned unchanged. -/
theorem register_existing_email (db : DB) (now : Nat) (email password : String)
    (salt : Nat) (newSecret : String) (u : User)
    (hemail : validateEmail email = true) (hpw : validatePassword password = true)
    (hfound : UserModel.findByEmail db email = some u) :
    AuthController.register db now true email password salt newSecret
      = (.err 409 "USER_EXISTS", db) := by
  simp [AuthController.register, hemail, hpw, hfound]

/-- Witness for the amended C3 at a concrete database. -/
theorem register_existing_email_witness :
    AuthController.register raceDB 10 true "u@x.com" "Passw0rd1" 3 "s"
      = (.err 409 "USER_EXISTS", raceDB) :=
  register_existing_email raceDB 10 "u@x.com" "Passw0rd1" 3 "s" raceUser
    (by decide) (by decide) (by decide)

/-- C10: when refresh finds an active record whose owning account is gone,
it responds 401 USER_NOT_FOUND and returns the database unchanged — the
presented record is not revoked and no new record is created. -/
theorem refresh_orphan_record (db : DB) (now : Nat) (presented newSecret : String)
    (stored : RefreshTokenRecord)
    (hfind : RefreshTokenModel.findByTokenHash db now (hashRefreshToken presented)
      = some stored)
    (huser : UserModel.findById db stored.user_id = none) :
    AuthController.refresh db now presented newSecret = (.err 401 "USER_NOT_FOUND", db) := by
  simp [AuthController.refresh, hfind, huser]

/-- Witness for C10 at the concrete orphaned record. -/
theorem refresh_orphan_record_witness :
    AuthController.refresh orphanDB 10 "orphan" "s" = (.err 401 "USER_NOT_FOUND", orphanDB) :=
  refresh_orphan_record orphanDB 10 "orphan" "s" orphanRec (by decide) (by decide)

/-- Helper: `revokeByTokenHash` is a strict no-op (state unchanged, zero row
count) when every record carrying the hash is already revoked, because the
UPDATE is guarded by `revoked_at IS NULL`. -/
theorem revokeByTokenHash_noop (db : DB) (now : Nat) (h : String)
    (H : ∀ r ∈ db.refresh_tokens, r.token_hash = h → r.revoked_at ≠ none) :
    RefreshTokenModel.revokeByTokenHash db now h = (db, false) := by
  unfold RefreshTokenModel.revokeByTokenHash
  have hcondF : ∀ r ∈ db.refresh_tokens,
      (r.token_hash == h && r.revoked_at.isNone) = false := by
    intro r hr
    by_cases hh : r.token_hash = h
    · have hne := H r hr hh
      have : r.revoked_at.isNone = false := by
        cases hx : r.revoked_at with
        | none => exact absurd hx hne
        | some _ => rfl
      simp [this]
    · simp [hh]
  have hfix : ∀ r ∈ db.refresh_tokens,
      (if r.token_hash == h && r.revoked_at.isNone
       then { r with revoked_at := some now } else r) = r := by
    intro r hr
    simp [hcondF r hr]
  have hmap : db.refresh_tokens.map
      (fun r => if r.token_hash == h && r.revoked_at.isNone
                then { r with revoked_at := some now } else r) = db.refresh_tokens :=
    (List.map_congr_left hfix).trans (List.map_id _)
  have hfil : db.refresh_tokens.filter
      (fun r => r.token_hash == h && r.revoked_at.isNone) = [] :=
    List.filter_eq_nil_iff.mpr (by intro r hr; simp [hcondF r hr])
  simp only [hmap, hfil]
  simp

/-- Helper: `revokeAllForUser` is a strict no-op when every record of the
account is already revoked (same `revoked_at IS NULL` guard). -/
theorem revokeAllForUser_noop (db : DB) (now : Nat) (uid : Nat)
    (H : ∀ r ∈ db.refresh_tokens, r.user_id = uid → r.revoked_at ≠ none) :
    RefreshTokenModel.revokeAllForUser db now uid = db := by
  unfold RefreshTokenModel.revokeAllForUser
  have hcondF : ∀ r ∈ db.refresh_tokens,
      (r.user_id == uid && r.revoked_at.isNone) = false := by
    intro r hr
    by_cases hh : r.user_id = uid
    · have hne := H r hr hh
      have : r.revoked_at.isNone = false := by
        cases hx : r.revoked_at with
        | none => exact absurd hx hne
        | some _ => rfl
      simp [this]
    · simp [hh]
  have hmap : db.refresh_tokens.map
      (fun r => if r.user_id == uid && r.revoked_at.isNone
                then { r with revoked_at := some now } else r) = db.refresh_tokens :=
    (List.map_congr_left (by intro r hr; simp [hcondF r hr])).trans (List.map_id _)
  simp only [hmap]

/-- C4 counterexample: `revoke(recordId)` on an already-revoked record is not
a state-preserving no-op — the unconditional UPDATE overwrites the existing
revocation timestamp (5 becomes 10). -/
theorem revoke_counterexample :
    RefreshTokenModel.revoke revokedDB 10 1 ≠ revokedDB
    ∧ (RefreshTokenModel.revoke revokedDB 10 1).refresh_tokens.map
        RefreshTokenRecord.revoked_at = [some 10] := by
  decide

/-- C4 amended: `revokeByRawSecret` and `revokeAllForAccount` are no-op
successes on already-revoked targets (their UPDATEs are guarded by
`revoked_at IS NULL`), and a second `logout(secret)` succeeds and changes no
state; `revoke(recordId)`, by contrast, leaves the record revoked but
overwrites its revocation timestamp with the current time. -/
theorem ledger_revocation_idempotence (db : DB) (now t1 t2 : Nat) (h : String)
    (uid rid : Nat) (s : String) :
    ((∀ r ∈ db.refresh_tokens, r.token_hash = h → r.revoked_at ≠ none) →
      RefreshTokenModel.revokeByTokenHash db now h = (db, false))
    ∧ ((∀ r ∈ db.refresh_tokens, r.user_id = uid → r.revoked_at ≠ none) →
      RefreshTokenModel.revokeAllForUser db now uid = db)
    ∧ (∀ r ∈ db.refresh_tokens, r.id = rid →
      { r with revoked_at := some now }
        ∈ (RefreshTokenModel.revoke db now rid).refresh_tokens)
    ∧ (AuthController.logout ((AuthController.logout db t1 (some s) none).2) t2 (some s) none
      = (.done, (AuthController.logout db t1 (some s) none).2)) := by
  refine ⟨revokeByTokenHash_noop db now h, revokeAllForUser_noop db now uid, ?_, ?_⟩
  · intro r hr hid
    unfold RefreshTokenModel.revoke
    simp only [List.mem_map]
    exact ⟨r, hr, by simp [hid]⟩
  · have key : ∀ r ∈ ((RefreshTokenModel.revokeByTokenHash db t1 (hashRefreshToken s)).1).refresh_tokens,
        r.token_hash = hashRefreshToken s → r.revoked_at ≠ none := by
      intro r hr hh
      unfold RefreshTokenModel.revokeByTokenHash at hr
      simp only [List.mem_map] at hr
      obtain ⟨r0, hr0, rfl⟩ := hr
      by_cases hcond : (r0.token_hash == hashRefreshToken s && r0.revoked_at.isNone) = true
      · simp [hcond]
      · rw [if_neg hcond] at hh ⊢
        have hbeq : (r0.token_hash == hashRefreshToken s) = true := beq_iff_eq.mpr hh
        simp only [hbeq, Bool.true_and] at hcond
        intro hnone
        exact hcond (by simp [hnone])
    simp only [AuthController.logout]
    rw [revokeByTokenHash_noop _ t2 _ key]

/-- Witness for the amended C4 at concrete already-revoked state. -/
theorem ledger_revocation_idempotence_witness :
    RefreshTokenModel.revokeByTokenHash revokedDB 10 (hashRefreshToken "secretA")
      = (revokedDB, false)
    ∧ RefreshTokenModel.revokeAllForUser revokedDB 10 1 = revokedDB
    ∧ { revokedRec with revoked_at := some 10 }
      ∈ (RefreshTokenModel.revoke revokedDB 10 1).refresh_tokens
    ∧ AuthController.logout ((AuthController.logout revokedDB 3 (some "secretA") none).2) 7
        (some "secretA") none
      = (.done, (AuthController.logout revokedDB 3 (some "secretA") none).2) := by
  have hthm := ledger_revocation_idempotence revokedDB 10 3 7 (hashRefreshToken "secretA") 1 1 "secretA"
  exact ⟨hthm.1 (by decide), hthm.2.1 (by decide),
    hthm.2.2.1 revokedRec (by decide) (by decide), hthm.2.2.2⟩

/-- Helper: re-hashing every record commutes with the newest-first insertion
sort, because the sort compares only `created_at`, which re-hashing
preserves. -/
theorem insertionSort_hashMap (g : RefreshTokenRecord → String) (l : List RefreshTokenRecord) :
    ((l.map (fun r => { r with token_hash := g r })).insertionSort
        (fun a b => b.created_at ≤ a.created_at))
      = ((l.insertionSort (fun a b => b.created_at ≤ a.created_at)).map
          (fun r => { r with token_hash := g r })) := by
  induction l with
  | nil => rfl
  | cons x xs ih =>
    simp only [List.map, List.insertionSort, ih]
    exact (List.map_orderedInsert (fun a b => b.created_at ≤ a.created_at)
      (fun a b => b.created_at ≤ a.created_at) (fun r => { r with token_hash := g r })
      (xs.insertionSort (fun a b => b.created_at ≤ a.created_at)) x
      (fun a _ => Iff.rfl) (fun a _ => Iff.rfl)).symm

/-- C8: for an authenticated account, `getSessions` returns 200 with exactly
the projections (id, created-at, expires-at) of the account's active refresh
records (not revoked, not expired), sorted newest-first by creation time,
together with their count; and the output is unchanged under arbitrary
rewriting of every stored token hash — no hash or secret influences (or
appears in) the response. -/
theorem getSessions_spec (db : DB) (now uid : Nat) (em : String) :
    ∃ ss, AuthController.getSessions db now (some (uid, em)) = .ok ss ss.length
      ∧ (∀ s, s ∈ ss ↔ ∃ r ∈ db.refresh_tokens,
            r.user_id = uid ∧ r.revoked_at = none ∧ now < r.expires_at ∧ s = sessionOf r)
      ∧ ss.Sorted (fun s1 s2 => s2.createdAt ≤ s1.createdAt)
      ∧ (∀ g : RefreshTokenRecord → String,
          AuthController.getSessions
            { db with refresh_tokens :=
                db.refresh_tokens.map (fun r => { r with token_hash := g r }) }
            now (some (uid, em)) = .ok ss ss.length) := by
  refine ⟨(RefreshTokenModel.findActiveByUserId db now uid).map sessionOf, rfl, ?_, ?_, ?_⟩
  · intro s
    unfold RefreshTokenModel.findActiveByUserId
    simp only [List.mem_map, List.mem_insertionSort, List.mem_filter,
      RefreshTokenRecord.isActive, Bool.and_eq_true, beq_iff_eq,
      Option.isNone_iff_eq_none, decide_eq_true_eq]
    constructor
    · rintro ⟨r, ⟨hr, huid, hrev, hexp⟩, rfl⟩
      exact ⟨r, hr, huid, hrev, hexp, rfl⟩
    · rintro ⟨r, hr, huid, hrev, hexp, rfl⟩
      exact ⟨r, ⟨hr, huid, hrev, hexp⟩, rfl⟩
  · have hs := List.sorted_insertionSort (fun a b => b.created_at ≤ a.created_at)
      (db.refresh_tokens.filter (fun r => r.user_id == uid && r.isActive now))
    exact List.Pairwise.map _ (fun a b h => h) hs
  · intro g
    have hcomp : ((fun r : RefreshTokenRecord => r.user_id == uid && r.isActive now) ∘
        (fun r => { r with token_hash := g r }))
        = (fun r : RefreshTokenRecord => r.user_id == uid && r.isActive now) :=
      funext fun r => rfl
    have h1 : (db.refresh_tokens.map (fun r => { r with token_hash := g r })).filter
        (fun r => r.user_id == uid && r.isActive now)
        = (db.refresh_tokens.filter (fun r => r.user_id == uid && r.isActive now)).map
            (fun r => { r with token_hash := g r }) := by
      rw [List.filter_map, hcomp]
    have hproj : (sessionOf ∘ (fun r : RefreshTokenRecord => { r with token_hash := g r }))
        = sessionOf := funext fun r => rfl
    show SessionsR.ok
        ((RefreshTokenModel.findActiveByUserId
          { db with refresh_tokens :=
              db.refresh_tokens.map (fun r => { r with token_hash := g r }) } now uid).map
          sessionOf) _
      = _
    unfold RefreshTokenModel.findActiveByUserId
    simp only [h1, insertionSort_hashMap, List.map_map, hproj]
    rfl

/-- Helper: the revocation map of a refresh rotation never changes a
record's token hash. -/
theorem revoke_map_preserves_hash (r : RefreshTokenRecord) (i t : Nat) :
    (if r.id == i then { r with revoked_at := some t } else r).token_hash = r.token_hash := by
  by_cases h : (r.id == i) = true
  · rw [if_pos h]
  · rw [if_neg h]

/-- Helper: a refresh call whose presented secret has no active record fails
401 INVALID_REFRESH_TOKEN and leaves the database untouched. -/
theorem refresh_fail_eq (db : DB) (now : Nat) (a x : String)
    (hnone : RefreshTokenModel.findByTokenHash db now (hashRefreshToken a) = none) :
    AuthController.refresh db now a x = (.err 401 "INVALID_REFRESH_TOKEN", db) := by
  simp [AuthController.refresh, hnone]

/-- Helper: the exact response and state of a successful sequential refresh:
revoke-then-insert, per the source order of the two UPDATE/INSERT queries. -/
theorem refresh_success_eq (db : DB) (now : Nat) (a b : String)
    (stored : RefreshTokenRecord) (u : User)
    (hfind : RefreshTokenModel.findByTokenHash db now (hashRefreshToken a) = some stored)
    (huser : UserModel.findById db stored.user_id = some u) :
    AuthController.refresh db now a b
      = (.refreshed (generateAccessToken now u.id u.email) b u.id u.email,
         rotatedDB db now stored.id u.id (hashRefreshToken b)) := by
  simp [AuthController.refresh, hfind, huser, RefreshTokenModel.revoke,
    RefreshTokenModel.create, getRefreshTokenExpiry, rotatedDB, newRecord]

/-- Helper: `findByTokenHash` misses when every record carrying the hash is
inactive. -/
theorem findByTokenHash_none (db : DB) (now : Nat) (h : String)
    (H : ∀ r ∈ db.refresh_tokens, r.token_hash = h → r.isActive now = false) :
    RefreshTokenModel.findByTokenHash db now h = none := by
  unfold RefreshTokenModel.findByTokenHash
  rw [List.find?_eq_none]
  intro r hr hp
  rw [Bool.and_eq_true, beq_iff_eq] at hp
  have hfalse := H r hr hp.1
  rw [hfalse] at hp
  exact Bool.false_ne_true hp.2

/-- C1: for any account and active refresh secret A (with the standard
ledger invariants: token hashes determine record ids, and the fresh secrets
drawn by rotation are new), a successful refresh(A) returns a fresh secret B
having revoked A's record before inserting B's; afterwards refresh(A) fails
401 INVALID_REFRESH_TOKEN at every later time without changing state, while
refresh(B) (within B's lifetime) succeeds exactly once more: it succeeds,
and any further refresh(B) fails INVALID_REFRESH_TOKEN. -/
theorem refresh_rotation
    (db : DB) (t1 t2 : Nat) (a b c : String) (stored : RefreshTokenRecord) (u : User)
    (Hkey : ∀ r1 ∈ db.refresh_tokens, ∀ r2 ∈ db.refresh_tokens,
      r1.token_hash = r2.token_hash → r1.id = r2.id)
    (Hfind : RefreshTokenModel.findByTokenHash db t1 (hashRefreshToken a) = some stored)
    (Huser : UserModel.findById db stored.user_id = some u)
    (Hbfresh : ∀ r ∈ db.refresh_tokens, r.token_hash ≠ hashRefreshToken b)
    (Hba : hashRefreshToken b ≠ hashRefreshToken a)
    (Hcb : hashRefreshToken c ≠ hashRefreshToken b)
    (Ht2 : t2 < t1 + refreshTokenLifetimeMs) :
    (AuthController.refresh db t1 a b).1
      = .refreshed (generateAccessToken t1 u.id u.email) b u.id u.email
    ∧ (∀ t x, AuthController.refresh (AuthController.refresh db t1 a b).2 t a x
        = (.err 401 "INVALID_REFRESH_TOKEN", (AuthController.refresh db t1 a b).2))
    ∧ (AuthController.refresh (AuthController.refresh db t1 a b).2 t2 b c).1
      = .refreshed (generateAccessToken t2 u.id u.email) c u.id u.email
    ∧ (∀ t y, (AuthController.refresh
        (AuthController.refresh (AuthController.refresh db t1 a b).2 t2 b c).2 t b y).1
      = .err 401 "INVALID_REFRESH_TOKEN") := by
  have Hfind' : db.refresh_tokens.find?
      (fun r => r.token_hash == hashRefreshToken a && r.isActive t1) = some stored := Hfind
  have hstoredMem : stored ∈ db.refresh_tokens := List.mem_of_find?_eq_some Hfind'
  have hstoredPred := List.find?_some Hfind'
  rw [Bool.and_eq_true, beq_iff_eq] at hstoredPred
  have Huser' : db.users.find? (fun x => x.id == stored.user_id) = some u := Huser
  have huid : u.id = stored.user_id := by
    have hp := List.find?_some Huser'
    rwa [beq_iff_eq] at hp
  have h1 := refresh_success_eq db t1 a b stored u Hfind Huser
  have hdb2 : (AuthController.refresh db t1 a b).2
      = rotatedDB db t1 stored.id u.id (hashRefreshToken b) := by rw [h1]
  -- after the first rotation no record for hash(a) is active, at any time
  have hnone2 : ∀ t : Nat, RefreshTokenModel.findByTokenHash
      (rotatedDB db t1 stored.id u.id (hashRefreshToken b)) t (hashRefreshToken a) = none := by
    intro t
    apply findByTokenHash_none
    intro r hr hh
    simp only [rotatedDB, newRecord, List.mem_append, List.mem_map,
      List.mem_singleton] at hr
    rcases hr with ⟨r0, hr0, rfl⟩ | rfl
    · by_cases hid : (r0.id == stored.id) = true
      · rw [if_pos hid]
        rfl
      · exfalso
        rw [if_neg hid] at hh
        have hr0a : r0.token_hash = stored.token_hash := hh.trans hstoredPred.1.symm
        exact hid (beq_iff_eq.mpr (Hkey r0 hr0 stored hstoredMem hr0a))
    · exact absurd hh Hba
  -- the successor record is found when presenting b within its lifetime
  have hfindb : RefreshTokenModel.findByTokenHash
      (rotatedDB db t1 stored.id u.id (hashRefreshToken b)) t2 (hashRefreshToken b)
      = some (newRecord db t1 u.id (hashRefreshToken b)) := by
    show ((db.refresh_tokens.map
        (fun r => if r.id == stored.id then { r with revoked_at := some t1 } else r))
      ++ [newRecord db t1 u.id (hashRefreshToken b)]).find?
        (fun r => r.token_hash == hashRefreshToken b && r.isActive t2)
      = some (newRecord db t1 u.id (hashRefreshToken b))
    rw [List.find?_append]
    have hl1 : (db.refresh_tokens.map
        (fun r => if r.id == stored.id then { r with revoked_at := some t1 } else r)).find?
        (fun r => r.token_hash == hashRefreshToken b && r.isActive t2) = none := by
      rw [List.find?_eq_none]
      intro r hr hp
      simp only [List.mem_map] at hr
      obtain ⟨r0, hr0, rfl⟩ := hr
      rw [Bool.and_eq_true, beq_iff_eq, revoke_map_preserves_hash] at hp
      exact Hbfresh r0 hr0 hp.1
    rw [hl1]
    have hpred : ((newRecord db t1 u.id (hashRefreshToken b)).token_hash
        == hashRefreshToken b
        && (newRecord db t1 u.id (hashRefreshToken b)).isActive t2) = true := by
      simp [newRecord, RefreshTokenRecord.isActive, Ht2]
    rw [Option.none_or]
    exact List.find?_cons_of_pos _ hpred
  have huser2 : UserModel.findById (rotatedDB db t1 stored.id u.id (hashRefreshToken b))
      (newRecord db t1 u.id (hashRefreshToken b)).user_id = some u := by
    show db.users.find? (fun x => x.id == u.id) = some u
    rw [huid]
    exact Huser'
  have h2 := refresh_success_eq (rotatedDB db t1 stored.id u.id (hashRefreshToken b)) t2 b c
    (newRecord db t1 u.id (hashRefreshToken b)) u hfindb huser2
  -- after the second rotation no record for hash(b) is active, at any time
  have hnone3 : ∀ t : Nat, RefreshTokenModel.findByTokenHash
      (rotatedDB (rotatedDB db t1 stored.id u.id (hashRefreshToken b)) t2
        (newRecord db t1 u.id (hashRefreshToken b)).id u.id (hashRefreshToken c))
      t (hashRefreshToken b) = none := by
    intro t
    apply findByTokenHash_none
    intro r hr hh
    simp only [rotatedDB, newRecord, List.mem_append, List.mem_map,
      List.mem_singleton] at hr
    rcases hr with ⟨r1, hr1, rfl⟩ | rfl
    · rcases hr1 with ⟨r0, hr0, rfl⟩ | rfl
      · exfalso
        rw [revoke_map_preserves_hash, revoke_map_preserves_hash] at hh
        exact Hbfresh r0 hr0 hh
      · rw [if_pos (beq_self_eq_true _)]
        rfl
    · exact absurd hh Hcb
  refine ⟨by rw [h1], ?_, ?_, ?_⟩
  · intro t x
    rw [hdb2]
    exact refresh_fail_eq _ t a x (hnone2 t)
  · rw [hdb2, h2]
  · intro t y
    rw [hdb2, h2]
    show (AuthController.refresh _ t b y).1 = _
    rw [refresh_fail_eq _ t b y (hnone3 t)]

/-- Witness for C1: the full rotation chain at a concrete database. -/
theorem refresh_rotation_witness :
    (AuthController.refresh raceDB 10 "secretA" "secretB").1
      = .refreshed (generateAccessToken 10 1 "u@x.com") "secretB" 1 "u@x.com"
    ∧ AuthController.refresh (AuthController.refresh raceDB 10 "secretA" "secretB").2
        30 "secretA" "x"
      = (.err 401 "INVALID_REFRESH_TOKEN",
         (AuthController.refresh raceDB 10 "secretA" "secretB").2)
    ∧ (AuthController.refresh (AuthController.refresh raceDB 10 "secretA" "secretB").2
        20 "secretB" "secretC").1
      = .refreshed (generateAccessToken 20 1 "u@x.com") "secretC" 1 "u@x.com"
    ∧ (AuthController.refresh (AuthController.refresh
        (AuthController.refresh raceDB 10 "secretA" "secretB").2 20 "secretB" "secretC").2
        40 "secretB" "y").1
      = .err 401 "INVALID_REFRESH_TOKEN" := by
  have h := refresh_rotation raceDB 10 20 "secretA" "secretB" "secretC" raceRec raceUser
    (by decide) (by decide) (by decide) (by decide) (by decide) (by decide) (by decide)
  exact ⟨h.1, h.2.1 30 "x", h.2.2.1, h.2.2.2 40 "y"⟩

/-- C2: the refresh handler's lookup and revoke are two separate queries,
not one atomic operation; under the interleaving `raceSchedule` two
concurrent refresh calls presenting the same secret BOTH succeed, and two
valid (active, findable) child records are issued from the same parent —
refuting the claimed mutual exclusion. -/
theorem refresh_race_both_succeed :
    ((runSchedule 10 raceSchedule (raceDB, raceTask0, raceTask1)).2.1.result.map
      RefreshR.isRefreshed = some true)
    ∧ ((runSchedule 10 raceSchedule (raceDB, raceTask0, raceTask1)).2.2.result.map
      RefreshR.isRefreshed = some true)
    ∧ ((RefreshTokenModel.findByTokenHash
        (runSchedule 10 raceSchedule (raceDB, raceTask0, raceTask1)).1 10
        (hashRefreshToken "secretB")).isSome = true)
    ∧ ((RefreshTokenModel.findByTokenHash
        (runSchedule 10 raceSchedule (raceDB, raceTask0, raceTask1)).1 10
        (hashRefreshToken "secretC")).isSome = true)
    ∧ (((runSchedule 10 raceSchedule (raceDB, raceTask0, raceTask1)).1.refresh_tokens.filter
        (fun r => r.isActive 10)).length = 2) := by
  decide
